import Mathlib

/-!
Verification development for the tool-router module
(`backend/open_webui/routers/tools.py`).

The route handlers are shallowly embedded as pure Lean functions.  External
collaborators (access control, the persistence store, the plugin loader, the
Arcade authorization broker) are passed in as explicit function parameters or
as an abstract store interface, mirroring the collaborator contracts the module
relies on.  Python exceptions and `HTTPException` responses are modelled with
`Except`; machine state that the handlers mutate (the persisted store, the
in-memory loaded-module cache, the remote-tool-server cache) is threaded
explicitly.
-/

set_option autoImplicit false

namespace OWTools

/-- JSON-style values used for valve payloads and access-control structures.
`null` models Python `None` inside a dict. -/
inductive Value where
  | null
  | str (s : String)
  | num (n : Int)
  | bool (b : Bool)
  deriving DecidableEq, Repr

/-- A Python dict with JSON-style values, as an association list. -/
abbrev Dict := List (String × Value)

/-- Derived callable specs (`get_tools_specs` output); the structure is opaque
to this module, only passed through, so a list of dicts suffices. -/
abbrev Specs := List Dict

/-- The authenticated caller resolved by `get_verified_user`. -/
structure User where
  id : String
  role : String
  deriving DecidableEq, Repr

/-- Outcome of a handler that does not return normally: either an
`HTTPException(status_code, detail)` or an uncaught Python exception
(e.g. a `KeyError`/`IndexError` escaping the handler). -/
inductive HandlerErr where
  | http (statusCode : Nat) (detail : String)
  | exn (msg : String)
  deriving DecidableEq, Repr

/-- Modelled from the spec: the `ERROR_MESSAGES` constants module
(`open_webui.constants`) is not under `src/`.  The spec says load/validation
failures are surfaced as a client error "carrying the underlying failure
message", so `DEFAULT` is modelled as returning the message itself. -/
def ERROR_MESSAGES.DEFAULT (msg : String) : String := msg

/-- Modelled from the spec: opaque constant message for not-found responses. -/
def ERROR_MESSAGES.NOT_FOUND : String := "NOT_FOUND"

/-- Modelled from the spec: opaque constant message for unauthorized responses. -/
def ERROR_MESSAGES.UNAUTHORIZED : String := "UNAUTHORIZED"

/-- Modelled from the spec: opaque constant message for id-collision responses. -/
def ERROR_MESSAGES.ID_TAKEN : String := "ID_TAKEN"

/-- Modelled from the spec: opaque constant message for prohibited access. -/
def ERROR_MESSAGES.ACCESS_PROHIBITED : String := "ACCESS_PROHIBITED"

/-- Python truthiness of an `Optional[str]`: `None` and the empty string are
falsy, every other string is truthy. -/
def strTruthy : Option String → Bool
  | none => false
  | some s => !s.isEmpty

/-- Python `a or b` on `Optional[str]` operands: returns `a` when `a` is
truthy, otherwise `b` (as in `auth_id = auth_id or auth.id`). -/
def pyOrStr (a b : Option String) : Option String :=
  if strTruthy a then a else b

/-- Start-character predicate of the ASCII fragment of `str.isidentifier`. -/
def isIdentStart (c : Char) : Bool := c.isAlpha || c == '_'

/-- Continuation-character predicate of the ASCII fragment of
`str.isidentifier`. -/
def isIdentCont (c : Char) : Bool := c.isAlphanum || c == '_'

/-- Python `str.isidentifier`, restricted to ASCII (the handler's own error
message reads "Only alphanumeric characters and underscores are allowed in
the id"): non-empty, first char a letter or underscore, remaining chars
letters, digits or underscores. -/
def pyIsIdentifier (s : String) : Bool :=
  match s.data with
  | [] => false
  | c :: rest => isIdentStart c && rest.all isIdentCont

/-! ## Arcade toolkit aggregation (`get_tools`, toolkit loop) -/

/-- Field `requirements.authorization.oauth2` of an Arcade tool. -/
structure OAuth2 where
  scopes : Option (List String)
  deriving DecidableEq, Repr

/-- Field `requirements.authorization` of an Arcade tool. -/
structure Authorization where
  oauth2 : Option OAuth2
  id : Option String
  provider_id : Option String
  provider_type : Option String
  deriving DecidableEq, Repr

/-- Field `requirements` of an Arcade tool. -/
structure Requirements where
  authorization : Option Authorization
  deriving DecidableEq, Repr

/-- An entry of `request.app.state.ARCADE_TOOLS`. -/
structure ArcadeTool where
  qualified_name : String
  requirements : Option Requirements
  deriving DecidableEq, Repr

/-- A toolkit entry of `request.app.state.config.ARCADE_TOOLS_CONFIG`.
Member tools are represented by their qualified names (the code reads
`tool.get('name')` from each member dict). -/
structure ToolkitConfig where
  enabled : Bool
  toolkit : String
  description : String
  tools : List String
  deriving DecidableEq, Repr

/-- The broker's authorization result (`client.auth.authorize` return value);
`none` at the call site models a result object that is falsy/absent. -/
structure AuthResult where
  status : String
  url : Option String
  deriving DecidableEq, Repr

/-- The `auth_requirement` dict passed to `client.auth.authorize`.  The code
passes `list(all_scopes)` of a Python `set`, whose order is unspecified, so
the model carries the set itself. -/
structure AuthRequirement where
  provider_id : Option String
  provider_type : Option String
  scopes : Finset String
  id : Option String
  deriving DecidableEq

/-- The `arcade_tool_mapper` dict, built by iterating over `ARCADE_TOOLS` and
assigning `mapper[tool.qualified_name] = tool`; a later assignment overwrites
an earlier one, so lookup returns the last matching element. -/
def buildMapper (ts : List ArcadeTool) (n : String) : Option ArcadeTool :=
  ts.reverse.find? (fun t => t.qualified_name == n)

/-- Accumulator of the per-toolkit aggregation loop
(`all_scopes`, `auth_id`, `auth_provider_id`, `auth_provider_type`). -/
structure AggState where
  all_scopes : Finset String
  auth_id : Option String
  auth_provider_id : Option String
  auth_provider_type : Option String
  deriving DecidableEq

/-- Initial accumulator: empty scope set, all three identity slots `None`. -/
def initAgg : AggState :=
  { all_scopes := ∅, auth_id := none, auth_provider_id := none
    auth_provider_type := none }

/-- One iteration of the toolkit member loop: when
`requirements and requirements.authorization` is truthy, union in the oauth2
scopes when `auth.oauth2 and auth.oauth2.scopes` is truthy (a `None` or empty
scope list contributes nothing), and apply Python `or`-assignment to the
three identity slots. -/
def aggStep (st : AggState) (t : ArcadeTool) : AggState :=
  match t.requirements.bind (fun r => r.authorization) with
  | none => st
  | some auth =>
      { all_scopes :=
          match auth.oauth2 with
          | some o2 =>
              match o2.scopes with
              | some ss => if ss.isEmpty then st.all_scopes
                           else st.all_scopes ∪ ss.toFinset
              | none => st.all_scopes
          | none => st.all_scopes
        auth_id := pyOrStr st.auth_id auth.id
        auth_provider_id := pyOrStr st.auth_provider_id auth.provider_id
        auth_provider_type := pyOrStr st.auth_provider_type auth.provider_type }

/-- The member loop `for tool in tool_kit.get('tools')`: each member name is
resolved through `arcade_tool_mapper[...]`; a missing key raises `KeyError`,
which escapes the handler. -/
def aggLoop (mapper : String → Option ArcadeTool) :
    AggState → List String → Except HandlerErr AggState
  | st, [] => .ok st
  | st, n :: rest =>
      match mapper n with
      | none => .error (.exn "KeyError")
      | some t => aggLoop mapper (aggStep st t) rest

/-- The `auth_requirement` dict built from the aggregated state; the `id`
key is set to the aggregated `auth_id` when truthy and to `None` otherwise. -/
def buildAuthRequirement (agg : AggState) : AuthRequirement :=
  { provider_id := agg.auth_provider_id
    provider_type := agg.auth_provider_type
    scopes := agg.all_scopes
    id := if strTruthy agg.auth_id then agg.auth_id else none }

/-! ## Catalog listing (`get_tools`) -/

/-- Field `meta` of a `ToolUserResponse`: local/server entries carry a description
only; toolkit entries additionally carry the `auth_completed` and `auth_url`
keys (`auth_url := some none` is a present key holding `None`). -/
structure RespMeta where
  description : String
  auth_completed : Option Bool := none
  auth_url : Option (Option String) := none
  deriving DecidableEq, Repr

/-- The `ToolUserResponse` rows returned by the listing endpoint. -/
structure ToolUserResponse where
  id : String
  user_id : String
  name : String
  meta : RespMeta
  access_control : Option Dict
  updated_at : Nat
  created_at : Nat
  deriving DecidableEq, Repr

/-- A cached remote tool server (an element of
`request.app.state.TOOL_SERVERS`): its `idx` field and the `info` block of
its OpenAPI document (`none` models an absent key, replaced by the coded
defaults). -/
structure ToolServer where
  idx : Nat
  title : Option String
  description : Option String
  deriving DecidableEq, Repr

/-- A configured remote connection
(`config.TOOL_SERVER_CONNECTIONS` entry): only its
`.get("config", {}).get("access_control", None)` value is read here. -/
structure ServerConn where
  access_control : Option Dict
  deriving DecidableEq, Repr

/-- The synthesized listing entry for one cached remote server: the id uses
the server's own `idx` field, while the access-control value is looked up
positionally in the connection configuration (done by the caller). -/
def serverEntry (now : Nat) (conn : ServerConn) (server : ToolServer) :
    ToolUserResponse :=
  { id := "server:" ++ toString server.idx
    user_id := "server:" ++ toString server.idx
    name := server.title.getD "Tool Server"
    meta := { description := server.description.getD "" }
    access_control := conn.access_control
    updated_at := now
    created_at := now }

/-- The `for idx, server in enumerate(TOOL_SERVERS)` loop: the
access-control value comes from `TOOL_SERVER_CONNECTIONS[idx]`, position
`idx` of the live configuration; an out-of-range index raises `IndexError`,
which escapes the handler. -/
def mkServerEntries (now : Nat) (conns : List ServerConn) :
    List ToolServer → Nat → Except HandlerErr (List ToolUserResponse)
  | [], _ => .ok []
  | s :: rest, idx =>
      match conns.get? idx with
      | none => .error (.exn "IndexError")
      | some conn =>
          match mkServerEntries now conns rest (idx + 1) with
          | .error e => .error e
          | .ok tail => .ok (serverEntry now conn s :: tail)

/-- The synthesized listing entry for one enabled toolkit.  With a broker
result, `auth_completed` is `True` exactly when the result status is
`"completed"` and `auth_url` is the result's literal url; with no result,
the permissive fallback is `auth_completed=True`, `auth_url=None`. -/
def toolkitEntry (now idx : Nat) (tk : ToolkitConfig)
    (res : Option AuthResult) : ToolUserResponse :=
  { id := "arcade:" ++ toString idx
    user_id := "arcade:" ++ toString idx
    name := tk.toolkit
    meta := { description := tk.description
              auth_completed := some (match res with
                | some r => r.status == "completed"
                | none => true)
              auth_url := some (match res with
                | some r => r.url
                | none => none) }
    access_control := none
    updated_at := now
    created_at := now }

/-- External collaborators and ambient state read by `get_tools`. -/
structure GetToolsEnv where
  has_access : String → String → Option Dict → Bool
  authorize : AuthRequirement → String → Option AuthResult
  fetchedServers : List ToolServer
  connections : List ServerConn
  arcadeTools : List ArcadeTool
  toolkitConfigs : List ToolkitConfig
  now : Nat

/-- The body of one iteration of the toolkit loop: skip disabled toolkits;
for an enabled one, aggregate requirements over member tools, call the
broker only when both aggregated provider id and provider type are truthy,
and synthesize the entry from the (possibly absent) broker result. -/
def processToolkit (env : GetToolsEnv) (userId : String) (idx : Nat)
    (tk : ToolkitConfig) : Except HandlerErr (Option ToolUserResponse) :=
  if tk.enabled then
    match aggLoop (buildMapper env.arcadeTools) initAgg tk.tools with
    | .error e => .error e
    | .ok agg =>
        let authResult : Option AuthResult :=
          if strTruthy agg.auth_provider_id && strTruthy agg.auth_provider_type
          then env.authorize (buildAuthRequirement agg) userId
          else none
        .ok (some (toolkitEntry env.now idx tk authResult))
  else
    .ok none

/-- The `for idx, tool_kit in enumerate(ARCADE_TOOLS_CONFIG)` loop. -/
def mkToolkitEntries (env : GetToolsEnv) (userId : String) :
    Nat → List ToolkitConfig → Except HandlerErr (List ToolUserResponse)
  | _, [] => .ok []
  | idx, tk :: rest =>
      match processToolkit env userId idx tk with
      | .error e => .error e
      | .ok entry =>
          match mkToolkitEntries env userId (idx + 1) rest with
          | .error e => .error e
          | .ok tail => .ok (match entry with
              | some e => e :: tail
              | none => tail)

/-- The access filter applied for non-admin callers: keep an entry iff the
caller owns it or the access-control collaborator grants read. -/
def keepForUser (env : GetToolsEnv) (user : User) (t : ToolUserResponse) :
    Bool :=
  t.user_id == user.id || env.has_access user.id "read" t.access_control

/-- Handler `get_tools` (`GET /`): populate the remote-server cache when it
is empty, start from the persisted local tools (`Tools.get_tools()`, passed
in as `localTools`), append one entry per cached remote server, then one
entry per enabled toolkit, and filter by read access unless the caller is an
admin.  Returns the response and the (possibly newly populated) server
cache. -/
def get_tools (env : GetToolsEnv) (cachedServers : List ToolServer)
    (localTools : List ToolUserResponse) (user : User) :
    Except HandlerErr (List ToolUserResponse) × List ToolServer :=
  let servers := if cachedServers.isEmpty then env.fetchedServers
                 else cachedServers
  match mkServerEntries env.now env.connections servers 0 with
  | .error e => (.error e, servers)
  | .ok serverEntries =>
      match mkToolkitEntries env user.id 0 env.toolkitConfigs with
      | .error e => (.error e, servers)
      | .ok toolkitEntries =>
          let tools := localTools ++ serverEntries ++ toolkitEntries
          let tools := if user.role != "admin" then
              tools.filter (keepForUser env user)
            else tools
          (.ok tools, servers)

/-! ## Persisted records, the store interface, and the module cache -/

/-- A persisted tool record (`ToolModel`): identity, owner, source content,
derived specs, meta (description + manifest front-matter), access control,
the admin-scope valves and timestamps. -/
structure ToolRecord where
  id : String
  user_id : String
  name : String
  content : String
  specs : Specs
  description : String
  manifest : Option String
  access_control : Option Dict
  valves : Dict
  updated_at : Nat
  created_at : Nat
  deriving DecidableEq, Repr

/-- Field `meta` of a `ToolForm`: description plus the manifest slot the handler
fills from the loader's front-matter. -/
structure FormMeta where
  description : String
  manifest : Option String
  deriving DecidableEq, Repr

/-- The request body of create/update (`ToolForm`). -/
structure ToolForm where
  id : String
  name : String
  content : String
  meta : FormMeta
  access_control : Option Dict
  deriving DecidableEq, Repr

/-- The patch passed to `Tools.update_tool_by_id`:
`form_data.model_dump(exclude={"id"})` plus the freshly derived specs. -/
structure ToolUpdate where
  name : String
  content : String
  meta : FormMeta
  access_control : Option Dict
  specs : Specs
  deriving DecidableEq, Repr

/-- A loaded in-memory tool module.  Only its surface used by this router is
modelled: the optional `Valves` and `UserValves` pydantic classes, each as a
constructor that validates a keyword dict and returns the `model_dump()`
of the resulting instance, or raises. -/
structure ToolModule where
  valves : Option (Dict → Except String Dict)
  user_valves : Option (Dict → Except String Dict)

/-- The in-memory loaded-module cache `request.app.state.TOOLS`. -/
abbrev ModCache := List (String × ToolModule)

/-- Python dict assignment `TOOLS[id] = m`: replace in place when the key
exists, append otherwise. -/
def ModCache.set (c : ModCache) (id : String) (m : ToolModule) : ModCache :=
  if c.any (fun kv => kv.1 == id) then
    c.map (fun kv => if kv.1 == id then (id, m) else kv)
  else
    c ++ [(id, m)]

/-- Python `if id in TOOLS: del TOOLS[id]`. -/
def ModCache.delIfPresent (c : ModCache) (id : String) : ModCache :=
  if c.any (fun kv => kv.1 == id) then
    c.filter (fun kv => !(kv.1 == id))
  else c

/-- Lookup `TOOLS[id]` guarded by `if id in TOOLS` with a load-and-cache fallback
(`load_tools_module_by_id(id)` without content); a loader failure here is an
uncaught exception in the valve handlers. -/
def getCachedModule (loadById : String → Except String ToolModule)
    (c : ModCache) (id : String) : Except String (ToolModule × ModCache) :=
  match c.find? (fun kv => kv.1 == id) with
  | some kv => .ok (kv.2, c)
  | none =>
      match loadById id with
      | .ok m => .ok (m, c.set id m)
      | .error e => .error e

/-- The persistence collaborator (`Tools`) as an abstract state-passing
interface over a store state `σ`; per its contract the operations never
raise — absence is signalled by `none`/`false` returns. -/
structure ToolsStore (σ : Type) where
  get_tool_by_id : σ → String → Option ToolRecord
  insert_new_tool : σ → String → ToolForm → Specs → Option ToolRecord × σ
  update_tool_by_id : σ → String → ToolUpdate → Option ToolRecord × σ
  delete_tool_by_id : σ → String → Bool × σ
  get_tool_valves_by_id : σ → String → Option Dict
  update_tool_valves_by_id : σ → String → Dict → σ
  get_user_valves_by_id_and_user_id : σ → String → String → Option Dict
  update_user_valves_by_id_and_user_id : σ → String → String → Dict → σ

/-- Concrete store state for witnesses: the list of persisted records plus a
map of per-user valves keyed by (tool id, user id). -/
structure ToolDB where
  tools : List ToolRecord
  userValves : List ((String × String) × Dict)
  deriving DecidableEq, Repr

/-- Record built by the reference store on insert. -/
def mkRecord (userId : String) (form : ToolForm) (specs : Specs) (now : Nat) :
    ToolRecord :=
  { id := form.id
    user_id := userId
    name := form.name
    content := form.content
    specs := specs
    description := form.meta.description
    manifest := form.meta.manifest
    access_control := form.access_control
    valves := []
    updated_at := now
    created_at := now }

/-- Record after applying an update patch in the reference store. -/
def applyUpdate (r : ToolRecord) (u : ToolUpdate) (now : Nat) : ToolRecord :=
  { r with
    name := u.name
    content := u.content
    description := u.meta.description
    manifest := u.meta.manifest
    access_control := u.access_control
    specs := u.specs
    updated_at := now }

/-- The reference list-backed store implementing the `Tools` contract. -/
def listStore (now : Nat) : ToolsStore ToolDB :=
  { get_tool_by_id := fun db id => db.tools.find? (fun r => r.id == id)
    insert_new_tool := fun db userId form specs =>
      let r := mkRecord userId form specs now
      (some r, { db with tools := db.tools ++ [r] })
    update_tool_by_id := fun db id u =>
      let tools := db.tools.map (fun r => if r.id == id then applyUpdate r u now else r)
      (tools.find? (fun r => r.id == id), { db with tools := tools })
    delete_tool_by_id := fun db id =>
      (db.tools.any (fun r => r.id == id),
       { db with tools := db.tools.filter (fun r => !(r.id == id)) })
    get_tool_valves_by_id := fun db id =>
      (db.tools.find? (fun r => r.id == id)).map (fun r => r.valves)
    update_tool_valves_by_id := fun db id v =>
      { db with tools := db.tools.map (fun r => if r.id == id then { r with valves := v } else r) }
    get_user_valves_by_id_and_user_id := fun db id userId =>
      (db.userValves.find? (fun kv => kv.1 == (id, userId))).map (fun kv => kv.2)
    update_user_valves_by_id_and_user_id := fun db id userId v =>
      if db.userValves.any (fun kv => kv.1 == (id, userId)) then
        { db with userValves :=
            (db.userValves.map (fun kv => if kv.1 == (id, userId) then (kv.1, v) else kv)) }
      else
        { db with userValves := db.userValves ++ [((id, userId), v)] } }

/-! ## CRUD and valve handlers -/

/-- External collaborators of the CRUD/valve handlers: access control
(`has_access`, `has_permission` with the configured permission table baked
in), the import rewriter, the plugin loader (with and without explicit
content) and the spec extractor. -/
structure Env where
  has_access : String → String → Option Dict → Bool
  has_permission : String → String → Bool
  replace_imports : String → String
  load_tools_module : String → String → Except String (ToolModule × String)
  load_tools_module_by_id : String → Except String ToolModule
  get_tools_specs : ToolModule → Specs

/-- Result of a state-mutating handler: the HTTP outcome plus the store and
module cache after the call. -/
structure HandlerResult (σ α : Type) where
  result : Except HandlerErr α
  store : σ
  cache : ModCache

/-- Handler `create_new_tools` (`POST /create`): role/permission check
(401), identifier check on the raw id (400), lowercase the id, collision
check on the lowercased id (400), rewrite imports and load the module
(load failure → 400 carrying the loader message), cache the module, derive
specs, insert.  The `CACHE_DIR` mkdir is a filesystem side effect outside
this model.  A falsy insert result raises `HTTPException(400)` inside the
`try`, which the broad `except` re-wraps into a 400 with the stringified
exception; no claim depends on that branch's detail text, modelled as the
original message. -/
def create_new_tools {σ : Type} (env : Env) (ops : ToolsStore σ) (s : σ)
    (cache : ModCache) (user : User) (form : ToolForm) :
    HandlerResult σ ToolRecord :=
  if user.role != "admin" && !(env.has_permission user.id "workspace.tools") then
    ⟨.error (.http 401 ERROR_MESSAGES.UNAUTHORIZED), s, cache⟩
  else if !(pyIsIdentifier form.id) then
    ⟨.error (.http 400 "Only alphanumeric characters and underscores are allowed in the id"), s, cache⟩
  else
    let form := { form with id := form.id.toLower }
    match ops.get_tool_by_id s form.id with
    | some _ => ⟨.error (.http 400 ERROR_MESSAGES.ID_TAKEN), s, cache⟩
    | none =>
        let content := env.replace_imports form.content
        match env.load_tools_module form.id content with
        | .error e => ⟨.error (.http 400 (ERROR_MESSAGES.DEFAULT e)), s, cache⟩
        | .ok (tmodule, frontmatter) =>
            let form := { form with
              content := content
              meta := { form.meta with manifest := some frontmatter } }
            let cache := cache.set form.id tmodule
            let specs := env.get_tools_specs tmodule
            match ops.insert_new_tool s user.id form specs with
            | (some r, s) => ⟨.ok r, s, cache⟩
            | (none, s) =>
                ⟨.error (.http 400 (ERROR_MESSAGES.DEFAULT "Error creating tools")), s, cache⟩

/-- Handler `get_tools_by_id` (`GET /id/{id}`): absent record → 401; present
record with admin role, ownership or a read grant → the record.  A present
record without access falls off the end of the function body, returning
Python `None` (a 200 response with `null` body), modelled as `.ok none`. -/
def get_tools_by_id {σ : Type} (env : Env) (ops : ToolsStore σ) (s : σ)
    (id : String) (user : User) : Except HandlerErr (Option ToolRecord) :=
  match ops.get_tool_by_id s id with
  | some tools =>
      if user.role == "admin" || tools.user_id == user.id
          || env.has_access user.id "read" tools.access_control then
        .ok (some tools)
      else
        .ok none
  | none => .error (.http 401 ERROR_MESSAGES.NOT_FOUND)

/-- Handler `update_tools_by_id` (`POST /id/{id}/update`): absent record →
401; caller neither owner nor write-granted nor admin → 401; rewrite imports
and reload the module (failure → 400 carrying the loader message, store
untouched); replace the cached module, derive specs, persist the patch.  A
falsy update result raises `HTTPException(400)` inside the `try`, re-wrapped
by the broad `except` as a 400; modelled with the original message. -/
def update_tools_by_id {σ : Type} (env : Env) (ops : ToolsStore σ) (s : σ)
    (cache : ModCache) (id : String) (user : User) (form : ToolForm) :
    HandlerResult σ ToolRecord :=
  match ops.get_tool_by_id s id with
  | none => ⟨.error (.http 401 ERROR_MESSAGES.NOT_FOUND), s, cache⟩
  | some tools =>
      if tools.user_id != user.id
          && !(env.has_access user.id "write" tools.access_control)
          && user.role != "admin" then
        ⟨.error (.http 401 ERROR_MESSAGES.UNAUTHORIZED), s, cache⟩
      else
        let content := env.replace_imports form.content
        match env.load_tools_module id content with
        | .error e => ⟨.error (.http 400 (ERROR_MESSAGES.DEFAULT e)), s, cache⟩
        | .ok (tmodule, frontmatter) =>
            let cache := cache.set id tmodule
            let specs := env.get_tools_specs tmodule
            let updated : ToolUpdate :=
              { name := form.name
                content := content
                meta := { form.meta with manifest := some frontmatter }
                access_control := form.access_control
                specs := specs }
            match ops.update_tool_by_id s id updated with
            | (some r, s) => ⟨.ok r, s, cache⟩
            | (none, s) =>
                ⟨.error (.http 400 (ERROR_MESSAGES.DEFAULT "Error updating tools")), s, cache⟩

/-- Handler `delete_tools_by_id` (`DELETE /id/{id}/delete`): absent record →
401; caller neither owner nor write-granted nor admin → 401; otherwise
return the store's boolean delete result, evicting the cached module entry
only when that result is true. -/
def delete_tools_by_id {σ : Type} (env : Env) (ops : ToolsStore σ) (s : σ)
    (cache : ModCache) (id : String) (user : User) : HandlerResult σ Bool :=
  match ops.get_tool_by_id s id with
  | none => ⟨.error (.http 401 ERROR_MESSAGES.NOT_FOUND), s, cache⟩
  | some tools =>
      if tools.user_id != user.id
          && !(env.has_access user.id "write" tools.access_control)
          && user.role != "admin" then
        ⟨.error (.http 401 ERROR_MESSAGES.UNAUTHORIZED), s, cache⟩
      else
        match ops.delete_tool_by_id s id with
        | (result, s) =>
            ⟨.ok result, s, if result then cache.delIfPresent id else cache⟩

/-- Handler `get_tools_valves_by_id` (`GET /id/{id}/valves`): absent record →
401; present record → the stored valves, with no role/ownership/access
check.  The store contract says `get_tool_valves_by_id` never raises, so
the handler's dead `except` branch (400) is not reachable in the model. -/
def get_tools_valves_by_id {σ : Type} (ops : ToolsStore σ) (s : σ)
    (id : String) (user : User) : Except HandlerErr (Option Dict) :=
  match ops.get_tool_by_id s id with
  | some _ => .ok (ops.get_tool_valves_by_id s id)
  | none => .error (.http 401 ERROR_MESSAGES.NOT_FOUND)

/-- Handler `update_tools_valves_by_id` (`POST /id/{id}/valves/update`):
absent record → 401; caller neither owner nor write-granted nor admin →
**400** `ACCESS_PROHIBITED`; module loaded (or reloaded) outside any `try`,
so a load failure escapes as an uncaught exception; module without a
`Valves` class → 401; then null-valued keys are stripped, the remaining
fields validated by the `Valves` constructor, and on success the flattened
dump is persisted and echoed; a validation failure → 400 carrying the
message, with no persistence. -/
def update_tools_valves_by_id {σ : Type} (env : Env) (ops : ToolsStore σ)
    (s : σ) (cache : ModCache) (id : String) (user : User)
    (form_data : Dict) : HandlerResult σ Dict :=
  match ops.get_tool_by_id s id with
  | none => ⟨.error (.http 401 ERROR_MESSAGES.NOT_FOUND), s, cache⟩
  | some tools =>
      if tools.user_id != user.id
          && !(env.has_access user.id "write" tools.access_control)
          && user.role != "admin" then
        ⟨.error (.http 400 ERROR_MESSAGES.ACCESS_PROHIBITED), s, cache⟩
      else
        match getCachedModule env.load_tools_module_by_id cache id with
        | .error e => ⟨.error (.exn e), s, cache⟩
        | .ok (tmodule, cache) =>
            match tmodule.valves with
            | none => ⟨.error (.http 401 ERROR_MESSAGES.NOT_FOUND), s, cache⟩
            | some mkValves =>
                let fd := form_data.filter (fun kv => kv.2 ≠ Value.null)
                match mkValves fd with
                | .ok dumped =>
                    ⟨.ok dumped, ops.update_tool_valves_by_id s id dumped, cache⟩
                | .error e =>
                    ⟨.error (.http 400 (ERROR_MESSAGES.DEFAULT e)), s, cache⟩

/-- Handler `get_tools_user_valves_by_id` (`GET /id/{id}/valves/user`):
absent record → 401; present record → the caller's stored user valves,
with no access check beyond authentication. -/
def get_tools_user_valves_by_id {σ : Type} (ops : ToolsStore σ) (s : σ)
    (id : String) (user : User) : Except HandlerErr (Option Dict) :=
  match ops.get_tool_by_id s id with
  | some _ => .ok (ops.get_user_valves_by_id_and_user_id s id user.id)
  | none => .error (.http 401 ERROR_MESSAGES.NOT_FOUND)

/-- Handler `update_tools_user_valves_by_id`
(`POST /id/{id}/valves/user/update`): absent record → 401; module loaded (or
reloaded) outside any `try`; module without a `UserValves` class → 401;
null-valued keys stripped, remaining fields validated by the `UserValves`
constructor; on success the dump is persisted for (id, caller) and echoed; a
validation failure → 400 carrying the message, with no persistence. -/
def update_tools_user_valves_by_id {σ : Type} (env : Env) (ops : ToolsStore σ)
    (s : σ) (cache : ModCache) (id : String) (user : User)
    (form_data : Dict) : HandlerResult σ Dict :=
  match ops.get_tool_by_id s id with
  | none => ⟨.error (.http 401 ERROR_MESSAGES.NOT_FOUND), s, cache⟩
  | some _ =>
      match getCachedModule env.load_tools_module_by_id cache id with
      | .error e => ⟨.error (.exn e), s, cache⟩
      | .ok (tmodule, cache) =>
          match tmodule.user_valves with
          | none => ⟨.error (.http 401 ERROR_MESSAGES.NOT_FOUND), s, cache⟩
          | some mkUserValves =>
              let fd := form_data.filter (fun kv => kv.2 ≠ Value.null)
              match mkUserValves fd with
              | .ok dumped =>
                  ⟨.ok dumped,
                   ops.update_user_valves_by_id_and_user_id s id user.id dumped,
                   cache⟩
              | .error e =>
                  ⟨.error (.http 400 (ERROR_MESSAGES.DEFAULT e)), s, cache⟩

/-! ## Spec-side characterizations

Definitions in this section follow the spec's words (union of declared
scopes, first non-empty value, null-stripping); the theorems relate them to
the embedded code above. -/

/-- Spec side: the authorization objects contributed by the member tools, in
iteration order (tools whose `requirements`/`authorization` is absent
contribute nothing). -/
def toolAuths (ts : List ArcadeTool) : List Authorization :=
  ts.filterMap (fun t => t.requirements.bind (fun r => r.authorization))

/-- Spec side: the OAuth scopes declared by one member tool. -/
def declaredScopes (t : ArcadeTool) : Finset String :=
  match t.requirements.bind (fun r => r.authorization) with
  | some auth =>
      match auth.oauth2 with
      | some o2 =>
          match o2.scopes with
          | some ss => ss.toFinset
          | none => ∅
      | none => ∅
  | none => ∅

/-- Spec side: the first non-empty (Python-truthy) value in a list of
optional strings, `none` when there is none. -/
def firstTruthy : List (Option String) → Option String
  | [] => none
  | x :: rest => if strTruthy x then x else firstTruthy rest

/-- The repeated Python `or`-assignment `x = x or y` along a list. -/
def pyOrFold (a : Option String) (xs : List (Option String)) : Option String :=
  xs.foldl pyOrStr a

/-- Spec side: member-name resolution through the tool mapper; `none` when
some name is missing (the code raises `KeyError` there). -/
def resolveTools (mapper : String → Option ArcadeTool) :
    List String → Option (List ArcadeTool)
  | [] => some []
  | n :: rest =>
      match mapper n with
      | none => none
      | some t =>
          match resolveTools mapper rest with
          | none => none
          | some ts => some (t :: ts)

/-- Spec side: dropping the null-valued keys of a valve payload. -/
def stripNulls (fd : Dict) : Dict :=
  fd.filter (fun kv => kv.2 ≠ Value.null)

lemma stripNulls_idem (fd : Dict) : stripNulls (stripNulls fd) = stripNulls fd := by
  simp only [stripNulls]
  induction fd with
  | nil => rfl
  | cons kv rest ih =>
      by_cases h : kv.2 = Value.null
      · simp [h, ih]
      · simp [h, ih]

lemma aggStep_scopes (st : AggState) (t : ArcadeTool) (s : String) :
    s ∈ (aggStep st t).all_scopes ↔
      s ∈ st.all_scopes ∨ s ∈ declaredScopes t := by
  unfold aggStep declaredScopes
  cases t.requirements.bind (fun r => r.authorization) with
  | none => simp
  | some auth =>
      obtain ⟨o2, aid, pid, pt⟩ := auth
      cases o2 with
      | none => simp
      | some oo =>
          obtain ⟨ss⟩ := oo
          cases ss with
          | none => simp
          | some l =>
              cases l with
              | nil => simp
              | cons a rest =>
                  simp only [List.isEmpty, Finset.mem_union, List.mem_toFinset,
                    List.mem_cons]
                  simp
                  tauto

lemma foldl_aggStep_scopes (ts : List ArcadeTool) :
    ∀ (st : AggState) (s : String),
      s ∈ (ts.foldl aggStep st).all_scopes ↔
        s ∈ st.all_scopes ∨ ∃ t ∈ ts, s ∈ declaredScopes t := by
  induction ts with
  | nil => simp
  | cons t ts ih =>
      intro st s
      simp only [List.foldl_cons, ih, aggStep_scopes, List.mem_cons]
      constructor
      · rintro (⟨h | h⟩ | ⟨u, hu, hs⟩)
        · exact Or.inl h
        · exact Or.inr ⟨t, Or.inl rfl, h⟩
        · exact Or.inr ⟨u, Or.inr hu, hs⟩
      · rintro (h | ⟨u, (rfl | hu), hs⟩)
        · exact Or.inl (Or.inl h)
        · exact Or.inl (Or.inr hs)
        · exact Or.inr ⟨u, hu, hs⟩

lemma foldl_aggStep_auth (ts : List ArcadeTool) :
    ∀ st : AggState,
      (ts.foldl aggStep st).auth_id =
          pyOrFold st.auth_id ((toolAuths ts).map (fun a => a.id)) ∧
        (ts.foldl aggStep st).auth_provider_id =
          pyOrFold st.auth_provider_id
            ((toolAuths ts).map (fun a => a.provider_id)) ∧
        (ts.foldl aggStep st).auth_provider_type =
          pyOrFold st.auth_provider_type
            ((toolAuths ts).map (fun a => a.provider_type)) := by
  induction ts with
  | nil => intro st; simp [pyOrFold, toolAuths]
  | cons t ts ih =>
      intro st
      cases h : t.requirements.bind (fun r => r.authorization) with
      | none =>
          have hstep : aggStep st t = st := by unfold aggStep; rw [h]
          simpa [toolAuths, List.filterMap_cons, h, hstep] using ih st
      | some auth =>
          have hstep : (aggStep st t).auth_id = pyOrStr st.auth_id auth.id ∧
              (aggStep st t).auth_provider_id =
                pyOrStr st.auth_provider_id auth.provider_id ∧
              (aggStep st t).auth_provider_type =
                pyOrStr st.auth_provider_type auth.provider_type := by
            unfold aggStep; rw [h]; exact ⟨rfl, rfl, rfl⟩
          have := ih (aggStep st t)
          simp only [toolAuths, List.filterMap_cons, h, List.map_cons,
            List.foldl_cons, pyOrFold] at *
          rw [hstep.1, hstep.2.1, hstep.2.2] at this
          exact this

lemma pyOrFold_of_truthy (xs : List (Option String)) :
    ∀ a, strTruthy a = true → pyOrFold a xs = a := by
  induction xs with
  | nil => intro a _; rfl
  | cons x xs ih =>
      intro a ha
      have : pyOrStr a x = a := by simp [pyOrStr, ha]
      simp only [pyOrFold, List.foldl_cons, this]
      exact ih a ha

lemma pyOrFold_firstTruthy (xs : List (Option String)) :
    ∀ a, strTruthy a = false →
      (strTruthy (pyOrFold a xs) = true → pyOrFold a xs = firstTruthy xs) ∧
        (strTruthy (pyOrFold a xs) = false → firstTruthy xs = none) := by
  induction xs with
  | nil =>
      intro a ha
      refine ⟨fun h => ?_, fun _ => rfl⟩
      rw [show pyOrFold a [] = a from rfl] at h
      rw [ha] at h
      cases h
  | cons x xs ih =>
      intro a ha
      have hstep : pyOrFold a (x :: xs) = pyOrFold x xs := by
        simp [pyOrFold, pyOrStr, ha]
      by_cases hx : strTruthy x = true
      · refine ⟨fun _ => ?_, fun hfalse => ?_⟩
        · rw [hstep, pyOrFold_of_truthy xs x hx]
          simp [firstTruthy, hx]
        · rw [hstep, pyOrFold_of_truthy xs x hx, hx] at hfalse
          cases hfalse
      · have hx' : strTruthy x = false := by
          cases hv : strTruthy x
          · rfl
          · exact absurd hv hx
        refine ⟨fun h => ?_, fun h => ?_⟩
        · rw [hstep] at h ⊢
          rw [(ih x hx').1 h]
          simp [firstTruthy, hx']
        · rw [hstep] at h
          have := (ih x hx').2 h
          simp [firstTruthy, hx', this]

lemma aggLoop_eq_foldl (mapper : String → Option ArcadeTool)
    (names : List String) :
    ∀ (ts : List ArcadeTool) (st : AggState),
      resolveTools mapper names = some ts →
      aggLoop mapper st names = .ok (ts.foldl aggStep st) := by
  induction names with
  | nil =>
      intro ts st h
      simp only [resolveTools, Option.some.injEq] at h
      subst h
      rfl
  | cons n ns ih =>
      intro ts st h
      unfold resolveTools at h
      cases hm : mapper n with
      | none => rw [hm] at h; cases h
      | some t =>
          rw [hm] at h
          cases hr : resolveTools mapper ns with
          | none => rw [hr] at h; cases h
          | some rest =>
              rw [hr] at h
              simp only [Option.some.injEq] at h
              subst h
              simp only [aggLoop, hm, List.foldl_cons]
              exact ih rest (aggStep st t) hr

/-! ## Concrete fixtures used by witnesses and counterexamples -/

/-- A loaded module whose `Valves`/`UserValves` constructors accept any
payload and echo it. -/
def trivModule : ToolModule :=
  { valves := some (fun fd => .ok fd), user_valves := some (fun fd => .ok fd) }

/-- Concrete collaborator environment: access control denies everything,
workspace permission granted, loading always succeeds with `trivModule`. -/
def envC : Env :=
  { has_access := fun _ _ _ => false
    has_permission := fun _ _ => true
    replace_imports := fun c => c
    load_tools_module := fun _ _ => .ok (trivModule, "fm")
    load_tools_module_by_id := fun _ => .ok trivModule
    get_tools_specs := fun _ => [] }

/-- Concrete collaborator environment whose loader always fails. -/
def envLoadFail : Env :=
  { envC with load_tools_module := fun _ _ => .error "boom" }

/-- A persisted record owned by `u2` with an explicit access-control value. -/
def recT1 : ToolRecord :=
  { id := "t1", user_id := "u2", name := "T1", content := "pass"
    specs := [], description := "", manifest := none
    access_control := some [], valves := [("k", Value.num 1)]
    updated_at := 0, created_at := 0 }

/-- A store holding only `recT1`. -/
def dbT1 : ToolDB := ⟨[recT1], []⟩

/-- The empty store. -/
def dbEmpty : ToolDB := ⟨[], []⟩

/-- A non-admin caller `u1`. -/
def userU1 : User := ⟨"u1", "user"⟩

/-- An admin caller. -/
def adminU : User := ⟨"a1", "admin"⟩

/-- A create form with a mixed-case id. -/
def formCalc : ToolForm :=
  { id := "Calc", name := "Calculator", content := "src"
    meta := { description := "d", manifest := none }, access_control := none }

/-- The local listing row for the `calc` scenario of the spec. -/
def calcResp : ToolUserResponse :=
  { id := "calc", user_id := "u1", name := "Calculator"
    meta := { description := "d" }, access_control := none
    updated_at := 0, created_at := 0 }

/-- Listing environment with no remote servers and no toolkits. -/
def envW : GetToolsEnv :=
  { has_access := fun _ _ _ => false
    authorize := fun _ _ => none
    fetchedServers := [], connections := []
    arcadeTools := [], toolkitConfigs := [], now := 0 }

/-- An Arcade authorization requirement block with scopes and identity. -/
def gmailAuth : Authorization :=
  { oauth2 := some { scopes := some ["scope.read", "scope.send"] }
    id := some "aid", provider_id := some "google"
    provider_type := some "oauth2" }

/-- An Arcade tool carrying `gmailAuth`. -/
def gmailTool : ArcadeTool :=
  { qualified_name := "Gmail.Send"
    requirements := some { authorization := some gmailAuth } }

/-- An enabled toolkit with `gmailTool` as its only member. -/
def tkGmail : ToolkitConfig :=
  { enabled := true, toolkit := "Gmail", description := "gmail toolkit"
    tools := ["Gmail.Send"] }

/-- Listing environment exposing `gmailTool`/`tkGmail`, broker returns no
result. -/
def envArc : GetToolsEnv :=
  { envW with arcadeTools := [gmailTool], toolkitConfigs := [tkGmail] }

/-- The aggregation state reached over `tkGmail`'s single member. -/
def aggG : AggState := aggStep initAgg gmailTool

/-! ## Claim theorems -/

/-- C10: for every store, caller and tool id, if the record exists then
reading the admin-scope valves (`GET /id/{id}/valves`) succeeds and returns
the store's valves for that id, regardless of the caller's role, ownership
or the record's access control: existence is the only enforced
precondition. -/
theorem valves_read_requires_only_existence {σ : Type} (ops : ToolsStore σ)
    (s : σ) (id : String) (user : User) (rec : ToolRecord)
    (h : ops.get_tool_by_id s id = some rec) :
    get_tools_valves_by_id ops s id user =
      .ok (ops.get_tool_valves_by_id s id) := by
  unfold get_tools_valves_by_id
  rw [h]

/-- Witness for C10: the non-owner, non-admin, access-denied caller `u1`
reads the valves of `t1`, which is owned by `u2`. -/
theorem valves_read_requires_only_existence_witness :
    (listStore 0).get_tool_by_id dbT1 "t1" = some recT1 ∧
      get_tools_valves_by_id (listStore 0) dbT1 "t1" userU1 =
        .ok ((listStore 0).get_tool_valves_by_id dbT1 "t1") ∧
      (listStore 0).get_tool_valves_by_id dbT1 "t1" =
        some [("k", Value.num 1)] :=
  ⟨rfl,
   valves_read_requires_only_existence (listStore 0) dbT1 "t1" userU1 recT1 rfl,
   rfl⟩

/-- C3 (amended): deletion by an authorized caller of an id whose record the
initial lookup finds returns the store's boolean delete result, and evicts
the in-memory module cache entry only when that result is true; deletion of
an id absent at the initial lookup raises a 401 error instead of returning a
boolean. -/
theorem delete_result_and_cache_eviction {σ : Type} (env : Env)
    (ops : ToolsStore σ) (s : σ) (cache : ModCache) (id : String)
    (user : User) (rec : ToolRecord)
    (hfound : ops.get_tool_by_id s id = some rec)
    (hauth : (rec.user_id != user.id
        && !(env.has_access user.id "write" rec.access_control)
        && user.role != "admin") = false) :
    delete_tools_by_id env ops s cache id user =
      ⟨.ok (ops.delete_tool_by_id s id).1, (ops.delete_tool_by_id s id).2,
       if (ops.delete_tool_by_id s id).1 then cache.delIfPresent id
       else cache⟩ ∧
    (∀ (s2 : σ) (cache2 : ModCache) (id2 : String) (user2 : User),
      ops.get_tool_by_id s2 id2 = none →
      delete_tools_by_id env ops s2 cache2 id2 user2 =
        ⟨.error (.http 401 ERROR_MESSAGES.NOT_FOUND), s2, cache2⟩) := by
  constructor
  · unfold delete_tools_by_id
    rw [hfound]
    simp only [hauth, Bool.false_eq_true, if_false]
  · intro s2 cache2 id2 user2 habsent
    unfold delete_tools_by_id
    rw [habsent]

/-- Counterexample for C3 as stated: deleting the absent id `"calc"` from
the empty store raises `HTTPException(401)` — it does not return a defined
boolean. -/
theorem delete_absent_id_raises_401 :
    (delete_tools_by_id envC (listStore 0) dbEmpty [] "calc" userU1).result =
        .error (.http 401 ERROR_MESSAGES.NOT_FOUND) ∧
      (delete_tools_by_id envC (listStore 0) dbEmpty [] "calc" userU1).result ≠
        .ok true ∧
      (delete_tools_by_id envC (listStore 0) dbEmpty [] "calc" userU1).result ≠
        .ok false := by
  have h : (delete_tools_by_id envC (listStore 0) dbEmpty [] "calc"
      userU1).result = .error (.http 401 ERROR_MESSAGES.NOT_FOUND) := rfl
  refine ⟨h, ?_, ?_⟩ <;> (rw [h]; simp)

/-- Witness for C3 (amended): owner `u2` deletes the present id `t1`; the
store's result is `true`, the record is gone and the cached module entry is
evicted. -/
theorem delete_result_and_cache_eviction_witness :
    (listStore 0).get_tool_by_id dbT1 "t1" = some recT1 ∧
      (recT1.user_id != ("u2" : String)
          && !(envC.has_access "u2" "write" recT1.access_control)
          && ("user" : String) != "admin") = false ∧
      delete_tools_by_id envC (listStore 0) dbT1 [("t1", trivModule)] "t1"
          ⟨"u2", "user"⟩ =
        ⟨.ok ((listStore 0).delete_tool_by_id dbT1 "t1").1,
         ((listStore 0).delete_tool_by_id dbT1 "t1").2,
         if ((listStore 0).delete_tool_by_id dbT1 "t1").1 then
           ModCache.delIfPresent [("t1", trivModule)] "t1"
         else [("t1", trivModule)]⟩ :=
  ⟨rfl, rfl,
   (delete_result_and_cache_eviction envC (listStore 0) dbT1
     [("t1", trivModule)] "t1" ⟨"u2", "user"⟩ recT1 rfl rfl).1⟩

/-- C4 (amended): every record-absent (NotFound) outcome across the embedded
handlers is reported with HTTP 401, never 404; insufficient
role/ownership/grant is reported with 401 by create, update and delete; the
two deviations forced by the code are: `update_tools_valves_by_id` reports
insufficient write access with HTTP 400 (`ACCESS_PROHIBITED`), and
`get_tools_by_id` on an existing tool that the caller cannot read returns a
successful empty (`None`) response rather than any error. -/
theorem error_status_taxonomy :
    (∀ (σ : Type) (env : Env) (ops : ToolsStore σ) (s : σ) (id : String)
        (user : User), ops.get_tool_by_id s id = none →
      get_tools_by_id env ops s id user =
        .error (.http 401 ERROR_MESSAGES.NOT_FOUND)) ∧
    (∀ (σ : Type) (env : Env) (ops : ToolsStore σ) (s : σ) (cache : ModCache)
        (id : String) (user : User) (form : ToolForm),
      ops.get_tool_by_id s id = none →
      update_tools_by_id env ops s cache id user form =
        ⟨.error (.http 401 ERROR_MESSAGES.NOT_FOUND), s, cache⟩) ∧
    (∀ (σ : Type) (env : Env) (ops : ToolsStore σ) (s : σ) (cache : ModCache)
        (id : String) (user : User),
      ops.get_tool_by_id s id = none →
      delete_tools_by_id env ops s cache id user =
        ⟨.error (.http 401 ERROR_MESSAGES.NOT_FOUND), s, cache⟩) ∧
    (∀ (σ : Type) (ops : ToolsStore σ) (s : σ) (id : String) (user : User),
      ops.get_tool_by_id s id = none →
      get_tools_valves_by_id ops s id user =
        .error (.http 401 ERROR_MESSAGES.NOT_FOUND)) ∧
    (∀ (σ : Type) (env : Env) (ops : ToolsStore σ) (s : σ) (cache : ModCache)
        (id : String) (user : User) (fd : Dict),
      ops.get_tool_by_id s id = none →
      update_tools_valves_by_id env ops s cache id user fd =
        ⟨.error (.http 401 ERROR_MESSAGES.NOT_FOUND), s, cache⟩) ∧
    (∀ (σ : Type) (ops : ToolsStore σ) (s : σ) (id : String) (user : User),
      ops.get_tool_by_id s id = none →
      get_tools_user_valves_by_id ops s id user =
        .error (.http 401 ERROR_MESSAGES.NOT_FOUND)) ∧
    (∀ (σ : Type) (env : Env) (ops : ToolsStore σ) (s : σ) (cache : ModCache)
        (id : String) (user : User) (fd : Dict),
      ops.get_tool_by_id s id = none →
      update_tools_user_valves_by_id env ops s cache id user fd =
        ⟨.error (.http 401 ERROR_MESSAGES.NOT_FOUND), s, cache⟩) ∧
    (∀ (σ : Type) (env : Env) (ops : ToolsStore σ) (s : σ) (cache : ModCache)
        (id : String) (user : User) (form : ToolForm) (rec : ToolRecord),
      ops.get_tool_by_id s id = some rec →
      (rec.user_id != user.id
          && !(env.has_access user.id "write" rec.access_control)
          && user.role != "admin") = true →
      update_tools_by_id env ops s cache id user form =
        ⟨.error (.http 401 ERROR_MESSAGES.UNAUTHORIZED), s, cache⟩) ∧
    (∀ (σ : Type) (env : Env) (ops : ToolsStore σ) (s : σ) (cache : ModCache)
        (id : String) (user : User) (rec : ToolRecord),
      ops.get_tool_by_id s id = some rec →
      (rec.user_id != user.id
          && !(env.has_access user.id "write" rec.access_control)
          && user.role != "admin") = true →
      delete_tools_by_id env ops s cache id user =
        ⟨.error (.http 401 ERROR_MESSAGES.UNAUTHORIZED), s, cache⟩) ∧
    (∀ (σ : Type) (env : Env) (ops : ToolsStore σ) (s : σ) (cache : ModCache)
        (user : User) (form : ToolForm),
      (user.role != "admin"
          && !(env.has_permission user.id "workspace.tools")) = true →
      create_new_tools env ops s cache user form =
        ⟨.error (.http 401 ERROR_MESSAGES.UNAUTHORIZED), s, cache⟩) ∧
    (∀ (σ : Type) (env : Env) (ops : ToolsStore σ) (s : σ) (cache : ModCache)
        (id : String) (user : User) (fd : Dict) (rec : ToolRecord),
      ops.get_tool_by_id s id = some rec →
      (rec.user_id != user.id
          && !(env.has_access user.id "write" rec.access_control)
          && user.role != "admin") = true →
      update_tools_valves_by_id env ops s cache id user fd =
        ⟨.error (.http 400 ERROR_MESSAGES.ACCESS_PROHIBITED), s, cache⟩) ∧
    (∀ (σ : Type) (env : Env) (ops : ToolsStore σ) (s : σ) (id : String)
        (user : User) (rec : ToolRecord),
      ops.get_tool_by_id s id = some rec →
      (user.role == "admin" || rec.user_id == user.id
          || env.has_access user.id "read" rec.access_control) = false →
      get_tools_by_id env ops s id user = .ok none) := by
  refine ⟨?_, ?_, ?_, ?_, ?_, ?_, ?_, ?_, ?_, ?_, ?_, ?_⟩
  · intro σ env ops s id user h
    unfold get_tools_by_id; rw [h]
  · intro σ env ops s cache id user form h
    unfold update_tools_by_id; rw [h]
  · intro σ env ops s cache id user h
    unfold delete_tools_by_id; rw [h]
  · intro σ ops s id user h
    unfold get_tools_valves_by_id; rw [h]
  · intro σ env ops s cache id user fd h
    unfold update_tools_valves_by_id; rw [h]
  · intro σ ops s id user h
    unfold get_tools_user_valves_by_id; rw [h]
  · intro σ env ops s cache id user fd h
    unfold update_tools_user_valves_by_id; rw [h]
  · intro σ env ops s cache id user form rec h hc
    unfold update_tools_by_id; rw [h]
    simp only [hc, if_true]
  · intro σ env ops s cache id user rec h hc
    unfold delete_tools_by_id; rw [h]
    simp only [hc, if_true]
  · intro σ env ops s cache user form hc
    unfold create_new_tools
    simp only [hc, if_true]
  · intro σ env ops s cache id user fd rec h hc
    unfold update_tools_valves_by_id; rw [h]
    simp only [hc, if_true]
  · intro σ env ops s id user rec h hc
    unfold get_tools_by_id; rw [h]
    simp only [hc, Bool.false_eq_true, if_false]

/-- Counterexample for C4 as stated: `t1` exists but the non-owner,
non-admin caller `u1` has no read grant; `GET /id/t1` answers with a
successful `None` (200, null body), not a 401 response, and the
unauthorized valve update answers 400, not 401. -/
theorem get_by_id_no_access_returns_null :
    get_tools_by_id envC (listStore 0) dbT1 "t1" userU1 = .ok none ∧
      get_tools_by_id envC (listStore 0) dbT1 "t1" userU1 ≠
        .error (.http 401 ERROR_MESSAGES.NOT_FOUND) ∧
      (update_tools_valves_by_id envC (listStore 0) dbT1 [] "t1" userU1
          []).result =
        .error (.http 400 ERROR_MESSAGES.ACCESS_PROHIBITED) := by
  have h : get_tools_by_id envC (listStore 0) dbT1 "t1" userU1 = .ok none :=
    rfl
  exact ⟨h, by rw [h]; simp, rfl⟩

/-- Witness for C4 (amended): the absent id `x` yields 401 on read, and the
unauthorized caller `u1` gets 401 on update and 400 on valve update. -/
theorem error_status_taxonomy_witness :
    ((listStore 0).get_tool_by_id dbEmpty "x" = none ∧
      get_tools_by_id envC (listStore 0) dbEmpty "x" userU1 =
        .error (.http 401 ERROR_MESSAGES.NOT_FOUND)) ∧
    ((listStore 0).get_tool_by_id dbT1 "t1" = some recT1 ∧
      (recT1.user_id != userU1.id
          && !(envC.has_access userU1.id "write" recT1.access_control)
          && userU1.role != "admin") = true ∧
      update_tools_by_id envC (listStore 0) dbT1 [] "t1" userU1 formCalc =
        ⟨.error (.http 401 ERROR_MESSAGES.UNAUTHORIZED), dbT1, []⟩) ∧
    update_tools_valves_by_id envC (listStore 0) dbT1 [] "t1" userU1 [] =
      ⟨.error (.http 400 ERROR_MESSAGES.ACCESS_PROHIBITED), dbT1, []⟩ :=
  ⟨⟨rfl, error_status_taxonomy.1 ToolDB envC (listStore 0) dbEmpty "x" userU1
      rfl⟩,
   ⟨rfl, rfl, (error_status_taxonomy.2.2.2.2.2.2.2.1) ToolDB envC (listStore 0)
      dbT1 [] "t1" userU1 formCalc recT1 rfl rfl⟩,
   (error_status_taxonomy.2.2.2.2.2.2.2.2.2.2.1) ToolDB envC (listStore 0)
      dbT1 [] "t1" userU1 [] recT1 rfl rfl⟩

/-- C5: for both update and create, a source load/validation failure aborts
the operation with a 400 client error whose detail carries the underlying
failure message, and the store state is returned unchanged — no write is
performed. -/
theorem load_failure_aborts_without_write :
    (∀ (σ : Type) (env : Env) (ops : ToolsStore σ) (s : σ) (cache : ModCache)
        (id : String) (user : User) (form : ToolForm) (rec : ToolRecord)
        (msg : String),
      ops.get_tool_by_id s id = some rec →
      (rec.user_id != user.id
          && !(env.has_access user.id "write" rec.access_control)
          && user.role != "admin") = false →
      env.load_tools_module id (env.replace_imports form.content) =
        .error msg →
      update_tools_by_id env ops s cache id user form =
        ⟨.error (.http 400 (ERROR_MESSAGES.DEFAULT msg)), s, cache⟩) ∧
    (∀ (σ : Type) (env : Env) (ops : ToolsStore σ) (s : σ) (cache : ModCache)
        (user : User) (form : ToolForm) (msg : String),
      (user.role != "admin"
          && !(env.has_permission user.id "workspace.tools")) = false →
      pyIsIdentifier form.id = true →
      ops.get_tool_by_id s form.id.toLower = none →
      env.load_tools_module form.id.toLower (env.replace_imports form.content)
        = .error msg →
      create_new_tools env ops s cache user form =
        ⟨.error (.http 400 (ERROR_MESSAGES.DEFAULT msg)), s, cache⟩) := by
  constructor
  · intro σ env ops s cache id user form rec msg h hc hload
    unfold update_tools_by_id
    rw [h]
    simp only [hc, Bool.false_eq_true, if_false]
    rw [hload]
  · intro σ env ops s cache user form msg hperm hid hlook hload
    unfold create_new_tools
    simp only [hperm, Bool.false_eq_true, if_false, hid, Bool.not_true,
      Bool.true_eq_false]
    rw [hlook, hload]

/-- Witness for C5: owner `u2` updates `t1` with a failing loader; the
response is a 400 carrying the loader message and the store is unchanged. -/
theorem load_failure_aborts_without_write_witness :
    (listStore 0).get_tool_by_id dbT1 "t1" = some recT1 ∧
      (recT1.user_id != ("u2" : String)
          && !(envLoadFail.has_access "u2" "write" recT1.access_control)
          && ("user" : String) != "admin") = false ∧
      envLoadFail.load_tools_module "t1"
          (envLoadFail.replace_imports formCalc.content) = .error "boom" ∧
      update_tools_by_id envLoadFail (listStore 0) dbT1 [] "t1"
          ⟨"u2", "user"⟩ formCalc =
        ⟨.error (.http 400 (ERROR_MESSAGES.DEFAULT "boom")), dbT1, []⟩ :=
  ⟨rfl, rfl, rfl,
   load_failure_aborts_without_write.1 ToolDB envLoadFail (listStore 0) dbT1
     [] "t1" ⟨"u2", "user"⟩ formCalc recT1 "boom" rfl rfl rfl⟩

lemma find?_append_none {α : Type} (p : α → Bool) (l₁ l₂ : List α)
    (h : l₁.find? p = none) : (l₁ ++ l₂).find? p = l₂.find? p := by
  induction l₁ with
  | nil => simp
  | cons a l ih =>
      cases hpa : p a with
      | true => rw [List.find?_cons_of_pos _ hpa] at h; cases h
      | false =>
          rw [List.find?_cons_of_neg _ (by simp [hpa])] at h
          rw [List.cons_append, List.find?_cons_of_neg _ (by simp [hpa])]
          exact ih h

/-- C2: with create permission in place, `create_new_tools` rejects a
non-identifier id with 400 and an already-taken id with 400, returning the
store unchanged in both cases; an id passing the identifier check is
lowercased before the collision check and before insertion, so (on the
reference store) a successful create with id `form.id` persists the record
under `form.id.toLower`. -/
theorem create_id_validation_and_lowercase :
    (∀ (σ : Type) (env : Env) (ops : ToolsStore σ) (s : σ) (cache : ModCache)
        (user : User) (form : ToolForm),
      (user.role != "admin"
          && !(env.has_permission user.id "workspace.tools")) = false →
      pyIsIdentifier form.id = false →
      create_new_tools env ops s cache user form =
        ⟨.error (.http 400 "Only alphanumeric characters and underscores are allowed in the id"),
         s, cache⟩) ∧
    (∀ (σ : Type) (env : Env) (ops : ToolsStore σ) (s : σ) (cache : ModCache)
        (user : User) (form : ToolForm) (rec : ToolRecord),
      (user.role != "admin"
          && !(env.has_permission user.id "workspace.tools")) = false →
      pyIsIdentifier form.id = true →
      ops.get_tool_by_id s form.id.toLower = some rec →
      create_new_tools env ops s cache user form =
        ⟨.error (.http 400 ERROR_MESSAGES.ID_TAKEN), s, cache⟩) ∧
    (∀ (env : Env) (db : ToolDB) (now : Nat) (cache : ModCache) (user : User)
        (form : ToolForm) (tmodule : ToolModule) (fm : String),
      (user.role != "admin"
          && !(env.has_permission user.id "workspace.tools")) = false →
      pyIsIdentifier form.id = true →
      (listStore now).get_tool_by_id db form.id.toLower = none →
      env.load_tools_module form.id.toLower (env.replace_imports form.content)
        = .ok (tmodule, fm) →
      (create_new_tools env (listStore now) db cache user form).result =
        .ok (mkRecord user.id
          { form with id := form.id.toLower
                      content := env.replace_imports form.content
                      meta := { form.meta with manifest := some fm } }
          (env.get_tools_specs tmodule) now) ∧
      (listStore now).get_tool_by_id
          (create_new_tools env (listStore now) db cache user form).store
          form.id.toLower =
        some (mkRecord user.id
          { form with id := form.id.toLower
                      content := env.replace_imports form.content
                      meta := { form.meta with manifest := some fm } }
          (env.get_tools_specs tmodule) now)) := by
  refine ⟨?_, ?_, ?_⟩
  · intro σ env ops s cache user form hperm hid
    unfold create_new_tools
    simp only [hperm, Bool.false_eq_true, if_false, hid, Bool.not_false,
      if_true]
  · intro σ env ops s cache user form rec hperm hid hlook
    unfold create_new_tools
    simp only [hperm, Bool.false_eq_true, if_false, hid, Bool.not_true,
      Bool.true_eq_false]
    rw [hlook]
  · intro env db now cache user form tmodule fm hperm hid hlook hload
    have hcreate : create_new_tools env (listStore now) db cache user form =
        ⟨.ok (mkRecord user.id
            { form with id := form.id.toLower
                        content := env.replace_imports form.content
                        meta := { form.meta with manifest := some fm } }
            (env.get_tools_specs tmodule) now),
          { db with tools := db.tools ++ [mkRecord user.id
            { form with id := form.id.toLower
                        content := env.replace_imports form.content
                        meta := { form.meta with manifest := some fm } }
            (env.get_tools_specs tmodule) now] },
          cache.set form.id.toLower tmodule⟩ := by
      unfold create_new_tools
      simp only [hperm, Bool.false_eq_true, if_false, hid, Bool.not_true,
        Bool.true_eq_false]
      rw [hlook, hload]
      rfl
    refine ⟨by rw [hcreate], ?_⟩
    rw [hcreate]
    show (db.tools ++ [_]).find? _ = _
    rw [find?_append_none _ db.tools _ hlook]
    simp [mkRecord]

/-- Witness for C2: create with id `"Calc"` on the empty store (admin
caller, loader succeeding) stores the record under `"calc"`, while
`"9bad!"` is rejected with 400 and the store is unchanged. -/
theorem create_id_validation_and_lowercase_witness :
    (pyIsIdentifier "9bad!" = false ∧
      create_new_tools envC (listStore 0) dbEmpty [] adminU
          { formCalc with id := "9bad!" } =
        ⟨.error (.http 400 "Only alphanumeric characters and underscores are allowed in the id"),
         dbEmpty, []⟩) ∧
    (pyIsIdentifier "Calc" = true ∧
      (listStore 0).get_tool_by_id dbEmpty "calc" = none ∧
      (create_new_tools envC (listStore 0) dbEmpty [] adminU
          formCalc).result =
        .ok (mkRecord "a1"
          { formCalc with id := "Calc".toLower
                          content := envC.replace_imports formCalc.content
                          meta := { formCalc.meta with manifest := some "fm" } }
          (envC.get_tools_specs trivModule) 0) ∧
      (listStore 0).get_tool_by_id
          (create_new_tools envC (listStore 0) dbEmpty [] adminU
            formCalc).store "Calc".toLower =
        some (mkRecord "a1"
          { formCalc with id := "Calc".toLower
                          content := envC.replace_imports formCalc.content
                          meta := { formCalc.meta with manifest := some "fm" } }
          (envC.get_tools_specs trivModule) 0)) :=
  ⟨⟨by decide,
    create_id_validation_and_lowercase.1 ToolDB envC (listStore 0) dbEmpty []
      adminU { formCalc with id := "9bad!" } rfl (by decide)⟩,
   ⟨by decide, rfl,
    create_id_validation_and_lowercase.2.2 envC dbEmpty 0 [] adminU formCalc
      trivModule "fm" rfl (by decide) rfl rfl⟩⟩

lemma get_tools_eq (env : GetToolsEnv) (cachedServers : List ToolServer)
    (localTools : List ToolUserResponse) (user : User) :
    get_tools env cachedServers localTools user =
      match mkServerEntries env.now env.connections
          (if cachedServers.isEmpty then env.fetchedServers
           else cachedServers) 0 with
      | .error e =>
          (.error e,
           if cachedServers.isEmpty then env.fetchedServers else cachedServers)
      | .ok se =>
          match mkToolkitEntries env user.id 0 env.toolkitConfigs with
          | .error e =>
              (.error e,
               if cachedServers.isEmpty then env.fetchedServers
               else cachedServers)
          | .ok te =>
              (.ok (if user.role != "admin" then
                  (localTools ++ se ++ te).filter (keepForUser env user)
                else localTools ++ se ++ te),
               if cachedServers.isEmpty then env.fetchedServers
               else cachedServers) := rfl

/-- C1: when the catalog listing returns successfully to a non-admin caller,
every entry of the returned list is owned by the caller or read-granted by
the access-control collaborator; an admin caller receives the merged list
(local tools, then server entries, then toolkit entries) unfiltered. -/
theorem tools_listing_read_filter (env : GetToolsEnv)
    (cachedServers : List ToolServer) (localTools : List ToolUserResponse)
    (user : User) :
    (user.role ≠ "admin" →
      ∀ ts, (get_tools env cachedServers localTools user).1 = .ok ts →
        ∀ t ∈ ts, t.user_id = user.id ∨
          env.has_access user.id "read" t.access_control = true) ∧
    (user.role = "admin" →
      ∀ se te,
        mkServerEntries env.now env.connections
          (if cachedServers.isEmpty then env.fetchedServers
           else cachedServers) 0 = .ok se →
        mkToolkitEntries env user.id 0 env.toolkitConfigs = .ok te →
        (get_tools env cachedServers localTools user).1 =
          .ok (localTools ++ se ++ te)) := by
  constructor
  · intro hrole ts hok t ht
    rw [get_tools_eq] at hok
    cases hse : mkServerEntries env.now env.connections
        (if cachedServers.isEmpty then env.fetchedServers
         else cachedServers) 0 with
    | error e => rw [hse] at hok; simp at hok
    | ok se =>
        rw [hse] at hok
        cases hte : mkToolkitEntries env user.id 0 env.toolkitConfigs with
        | error e => rw [hte] at hok; simp at hok
        | ok te =>
            rw [hte] at hok
            have hb : (user.role != "admin") = true := by
              simpa [bne_iff_ne] using hrole
            rw [hb] at hok
            simp only [if_true, Except.ok.injEq] at hok
            subst hok
            have hkeep := List.of_mem_filter ht
            unfold keepForUser at hkeep
            rcases Bool.or_eq_true _ _ |>.mp hkeep with h | h
            · exact Or.inl (by simpa using h)
            · exact Or.inr h
  · intro hrole se te hse hte
    rw [get_tools_eq, hse, hte]
    have hb : (user.role != "admin") = false := by simp [hrole]
    rw [hb]
    simp

/-- Witness for C1: the non-admin owner `u1` lists a catalog holding only
their own `calc` tool; every returned entry passes the ownership/read
check. -/
theorem tools_listing_read_filter_witness :
    userU1.role ≠ "admin" ∧
      (get_tools envW [] [calcResp] userU1).1 = .ok [calcResp] ∧
      (∀ t ∈ [calcResp], t.user_id = userU1.id ∨
        envW.has_access userU1.id "read" t.access_control = true) :=
  ⟨by decide, rfl,
   (tools_listing_read_filter envW [] [calcResp] userU1).1 (by decide)
     [calcResp] rfl⟩

/-- C8: the catalog listing result is the concatenation of the persisted
local tool entries, then one entry per cached remote server, then one entry
per enabled toolkit in configuration order (access-filtered for non-admin
callers); in particular, for owner `u1` with the single local tool `calc`
(`access_control` = null) and zero configured servers/toolkits the result is
exactly the one `calc` entry. -/
theorem catalog_listing_order :
    (∀ (env : GetToolsEnv) (cachedServers : List ToolServer)
        (localTools : List ToolUserResponse) (user : User)
        (se te : List ToolUserResponse),
      mkServerEntries env.now env.connections
        (if cachedServers.isEmpty then env.fetchedServers
         else cachedServers) 0 = .ok se →
      mkToolkitEntries env user.id 0 env.toolkitConfigs = .ok te →
      (get_tools env cachedServers localTools user).1 =
        .ok (if user.role != "admin" then
            (localTools ++ se ++ te).filter (keepForUser env user)
          else localTools ++ se ++ te)) ∧
    get_tools envW [] [calcResp] userU1 = (.ok [calcResp], []) := by
  constructor
  · intro env cachedServers localTools user se te hse hte
    rw [get_tools_eq, hse, hte]
  · rfl

/-- Witness for C8: the general ordering equation applied to the concrete
`calc` scenario environment. -/
theorem catalog_listing_order_witness :
    mkServerEntries envW.now envW.connections
        (if ([] : List ToolServer).isEmpty then envW.fetchedServers
         else []) 0 = .ok [] ∧
      mkToolkitEntries envW userU1.id 0 envW.toolkitConfigs = .ok [] ∧
      (get_tools envW [] [calcResp] userU1).1 =
        .ok (if userU1.role != "admin" then
            ([calcResp] ++ [] ++ []).filter (keepForUser envW userU1)
          else [calcResp] ++ [] ++ []) :=
  ⟨rfl, rfl,
   catalog_listing_order.1 envW [] [calcResp] userU1 [] [] rfl rfl⟩

/-- A loaded module whose valve constructors always fail validation. -/
def failValvesModule : ToolModule :=
  { valves := some (fun _ => .error "bad")
    user_valves := some (fun _ => .error "bad") }

/-- Environment whose by-id loader yields `failValvesModule`. -/
def envValveFail : Env :=
  { envC with load_tools_module_by_id := fun _ => .ok failValvesModule }

/-- C9: for both the admin-scope and the per-user valve-set handlers, a
payload is processed identically to the same payload with its null-valued
keys removed (null-stripping happens before validation), and when the
tool-declared constructor rejects the stripped fields the handler answers
400 carrying the message and returns the store unchanged — no persistence
call is made. -/
theorem valve_update_null_stripping :
    (∀ (σ : Type) (env : Env) (ops : ToolsStore σ) (s : σ) (cache : ModCache)
        (id : String) (user : User) (fd : Dict),
      update_tools_valves_by_id env ops s cache id user fd =
        update_tools_valves_by_id env ops s cache id user (stripNulls fd)) ∧
    (∀ (σ : Type) (env : Env) (ops : ToolsStore σ) (s : σ) (cache : ModCache)
        (id : String) (user : User) (fd : Dict),
      update_tools_user_valves_by_id env ops s cache id user fd =
        update_tools_user_valves_by_id env ops s cache id user
          (stripNulls fd)) ∧
    (∀ (σ : Type) (env : Env) (ops : ToolsStore σ) (s : σ) (cache : ModCache)
        (id : String) (user : User) (fd : Dict) (rec : ToolRecord)
        (tmodule : ToolModule) (cache2 : ModCache)
        (ctor : Dict → Except String Dict) (msg : String),
      ops.get_tool_by_id s id = some rec →
      (rec.user_id != user.id
          && !(env.has_access user.id "write" rec.access_control)
          && user.role != "admin") = false →
      getCachedModule env.load_tools_module_by_id cache id =
        .ok (tmodule, cache2) →
      tmodule.valves = some ctor →
      ctor (stripNulls fd) = .error msg →
      update_tools_valves_by_id env ops s cache id user fd =
        ⟨.error (.http 400 (ERROR_MESSAGES.DEFAULT msg)), s, cache2⟩) ∧
    (∀ (σ : Type) (env : Env) (ops : ToolsStore σ) (s : σ) (cache : ModCache)
        (id : String) (user : User) (fd : Dict) (rec : ToolRecord)
        (tmodule : ToolModule) (cache2 : ModCache)
        (ctor : Dict → Except String Dict) (msg : String),
      ops.get_tool_by_id s id = some rec →
      getCachedModule env.load_tools_module_by_id cache id =
        .ok (tmodule, cache2) →
      tmodule.user_valves = some ctor →
      ctor (stripNulls fd) = .error msg →
      update_tools_user_valves_by_id env ops s cache id user fd =
        ⟨.error (.http 400 (ERROR_MESSAGES.DEFAULT msg)), s, cache2⟩) := by
  refine ⟨?_, ?_, ?_, ?_⟩
  · intro σ env ops s cache id user fd
    unfold update_tools_valves_by_id
    cases hlook : ops.get_tool_by_id s id with
    | none => rfl
    | some tools =>
        cases hc : (tools.user_id != user.id
            && !(env.has_access user.id "write" tools.access_control)
            && user.role != "admin") with
        | true => simp only [hc, if_true]
        | false =>
            simp only [hc, Bool.false_eq_true, if_false]
            cases hm : getCachedModule env.load_tools_module_by_id cache id with
            | error e => rfl
            | ok pr =>
                obtain ⟨tmodule, cache2⟩ := pr
                cases hv : tmodule.valves with
                | none => simp only [hv]
                | some ctor =>
                    have h := stripNulls_idem fd
                    simp only [stripNulls] at h ⊢
                    simp only [hv, h]
  · intro σ env ops s cache id user fd
    unfold update_tools_user_valves_by_id
    cases hlook : ops.get_tool_by_id s id with
    | none => rfl
    | some tools =>
        cases hm : getCachedModule env.load_tools_module_by_id cache id with
        | error e => rfl
        | ok pr =>
            obtain ⟨tmodule, cache2⟩ := pr
            cases hv : tmodule.user_valves with
            | none => simp only [hv]
            | some ctor =>
                have h := stripNulls_idem fd
                simp only [stripNulls] at h ⊢
                simp only [hv, h]
  · intro σ env ops s cache id user fd rec tmodule cache2 ctor msg hlook hc
      hm hv hctor
    unfold update_tools_valves_by_id
    rw [hlook]
    simp only [hc, Bool.false_eq_true, if_false]
    simp only [stripNulls] at hctor
    simp only [hm, hv, hctor]
  · intro σ env ops s cache id user fd rec tmodule cache2 ctor msg hlook hm
      hv hctor
    unfold update_tools_user_valves_by_id
    rw [hlook]
    simp only [stripNulls] at hctor
    simp only [hm, hv, hctor]

/-- Witness for C9: a payload holding one null-valued key behaves like the
empty payload, and a failing constructor yields 400 with the store
unchanged. -/
theorem valve_update_null_stripping_witness :
    (update_tools_valves_by_id envC (listStore 0) dbT1 [] "t1" ⟨"u2", "user"⟩
        [("a", Value.null)] =
      update_tools_valves_by_id envC (listStore 0) dbT1 [] "t1" ⟨"u2", "user"⟩
        (stripNulls [("a", Value.null)])) ∧
    ((listStore 0).get_tool_by_id dbT1 "t1" = some recT1 ∧
      failValvesModule.valves = some (fun _ => .error "bad") ∧
      update_tools_valves_by_id envValveFail (listStore 0) dbT1 [] "t1"
          ⟨"u2", "user"⟩ [("a", Value.null)] =
        ⟨.error (.http 400 (ERROR_MESSAGES.DEFAULT "bad")), dbT1,
         [("t1", failValvesModule)]⟩) :=
  ⟨valve_update_null_stripping.1 ToolDB envC (listStore 0) dbT1 [] "t1"
     ⟨"u2", "user"⟩ [("a", Value.null)],
   rfl, rfl,
   valve_update_null_stripping.2.2.1 ToolDB envValveFail (listStore 0) dbT1
     [] "t1" ⟨"u2", "user"⟩ [("a", Value.null)] recT1 failValvesModule
     [("t1", failValvesModule)] (fun _ => .error "bad") "bad" rfl rfl rfl rfl
     rfl⟩

/-- C6: for an enabled toolkit whose aggregation succeeds and whose
aggregated provider id/type trigger the broker call: when the broker
returns no result object, the synthesized entry is appended with
`auth_completed = true` and a null authorization URL (permissive fallback,
not an error); when the broker returns a result, the entry carries
`auth_completed` equal to whether the result status is `"completed"` and
the result's literal URL. -/
theorem toolkit_auth_result_surfacing (env : GetToolsEnv) (userId : String)
    (idx : Nat) (tk : ToolkitConfig) (agg : AggState)
    (hen : tk.enabled = true)
    (hagg : aggLoop (buildMapper env.arcadeTools) initAgg tk.tools = .ok agg)
    (hcall : (strTruthy agg.auth_provider_id
        && strTruthy agg.auth_provider_type) = true) :
    (env.authorize (buildAuthRequirement agg) userId = none →
      processToolkit env userId idx tk =
          .ok (some (toolkitEntry env.now idx tk none)) ∧
        (toolkitEntry env.now idx tk none).meta.auth_completed = some true ∧
        (toolkitEntry env.now idx tk none).meta.auth_url = some none) ∧
    (∀ r, env.authorize (buildAuthRequirement agg) userId = some r →
      processToolkit env userId idx tk =
          .ok (some (toolkitEntry env.now idx tk (some r))) ∧
        (toolkitEntry env.now idx tk (some r)).meta.auth_completed =
          some (r.status == "completed") ∧
        (toolkitEntry env.now idx tk (some r)).meta.auth_url = some r.url) := by
  constructor
  · intro hnone
    refine ⟨?_, rfl, rfl⟩
    unfold processToolkit
    simp only [hen, if_true]
    rw [hagg]
    simp only [hcall, if_true, hnone]
  · intro r hsome
    refine ⟨?_, rfl, rfl⟩
    unfold processToolkit
    simp only [hen, if_true]
    rw [hagg]
    simp only [hcall, if_true, hsome]

/-- Witness for C6: the Gmail toolkit with a broker returning no result gets
the permissive fallback entry. -/
theorem toolkit_auth_result_surfacing_witness :
    tkGmail.enabled = true ∧
      aggLoop (buildMapper envArc.arcadeTools) initAgg tkGmail.tools =
        .ok aggG ∧
      (strTruthy aggG.auth_provider_id
          && strTruthy aggG.auth_provider_type) = true ∧
      (processToolkit envArc "u1" 0 tkGmail =
          .ok (some (toolkitEntry envArc.now 0 tkGmail none)) ∧
        (toolkitEntry envArc.now 0 tkGmail none).meta.auth_completed =
          some true ∧
        (toolkitEntry envArc.now 0 tkGmail none).meta.auth_url = some none) :=
  ⟨rfl, rfl, rfl,
   (toolkit_auth_result_surfacing envArc "u1" 0 tkGmail aggG rfl rfl rfl).1
     rfl⟩

/-- C7: over the resolved member tools of a toolkit, the aggregation loop
computes exactly the left fold of `aggStep`; the scope set placed in the
broker requirement is the union of the scopes declared across member tools;
and the provider id, provider type (whenever truthy, i.e. whenever the
broker call is made) and the authorization identity placed in the
requirement are each the first non-empty such value encountered iterating
over member tools in order. -/
theorem toolkit_requirement_aggregation
    (mapper : String → Option ArcadeTool) (names : List String)
    (ts : List ArcadeTool) (hres : resolveTools mapper names = some ts) :
    aggLoop mapper initAgg names = .ok (ts.foldl aggStep initAgg) ∧
      (∀ s, s ∈ (buildAuthRequirement (ts.foldl aggStep initAgg)).scopes ↔
        ∃ t ∈ ts, s ∈ declaredScopes t) ∧
      (strTruthy (ts.foldl aggStep initAgg).auth_provider_id = true →
        (buildAuthRequirement (ts.foldl aggStep initAgg)).provider_id =
          firstTruthy ((toolAuths ts).map (fun a => a.provider_id))) ∧
      (strTruthy (ts.foldl aggStep initAgg).auth_provider_type = true →
        (buildAuthRequirement (ts.foldl aggStep initAgg)).provider_type =
          firstTruthy ((toolAuths ts).map (fun a => a.provider_type))) ∧
      (buildAuthRequirement (ts.foldl aggStep initAgg)).id =
        firstTruthy ((toolAuths ts).map (fun a => a.id)) := by
  refine ⟨aggLoop_eq_foldl mapper names ts initAgg hres, ?_, ?_, ?_, ?_⟩
  · intro s
    have h := foldl_aggStep_scopes ts initAgg s
    simpa [buildAuthRequirement, initAgg] using h
  · intro h
    have hfold := (foldl_aggStep_auth ts initAgg).2.1
    show (ts.foldl aggStep initAgg).auth_provider_id = _
    rw [hfold] at h ⊢
    exact (pyOrFold_firstTruthy _ none rfl).1 h
  · intro h
    have hfold := (foldl_aggStep_auth ts initAgg).2.2
    show (ts.foldl aggStep initAgg).auth_provider_type = _
    rw [hfold] at h ⊢
    exact (pyOrFold_firstTruthy _ none rfl).1 h
  · have hfold := (foldl_aggStep_auth ts initAgg).1
    show (if strTruthy (ts.foldl aggStep initAgg).auth_id then
        (ts.foldl aggStep initAgg).auth_id else none) = _
    cases ht : strTruthy (ts.foldl aggStep initAgg).auth_id with
    | true =>
        simp only [if_true]
        rw [hfold] at ht ⊢
        exact (pyOrFold_firstTruthy _ none rfl).1 ht
    | false =>
        simp only [Bool.false_eq_true, if_false]
        rw [hfold] at ht
        exact ((pyOrFold_firstTruthy _ none rfl).2 ht).symm

/-- Witness for C7: the single-member Gmail toolkit resolves, and the
requirement's identity is the first non-empty declared identity. -/
theorem toolkit_requirement_aggregation_witness :
    resolveTools (buildMapper [gmailTool]) ["Gmail.Send"] =
        some [gmailTool] ∧
      (buildAuthRequirement ([gmailTool].foldl aggStep initAgg)).id =
        firstTruthy ((toolAuths [gmailTool]).map (fun a => a.id)) :=
  ⟨rfl,
   (toolkit_requirement_aggregation (buildMapper [gmailTool]) ["Gmail.Send"]
     [gmailTool] rfl).2.2.2.2⟩

end OWTools
